import Mathlib

/-!
Verification of the TWAP calculator (`twap_calculator.js`, `twap-cli.js`).

The embedding models the two core functions of the repository, `calculateTWAP`
(twap_calculator.js lines 128-207, duplicated as `calculateTWAPCLI` in
twap-cli.js lines 207-285) and `detectManipulation` (twap_calculator.js lines
4-83) with its helpers `calculateConfidence` (lines 85-95) and
`getRecommendations` (lines 97-126).

Modelling conventions, in order of appearance:
* JavaScript numbers are IEEE-754 binary64.  Real-valued arithmetic on them
  (division producing fractions, percentages) is idealized over `ℚ`, and the
  decimal literals 1.0001, 0.3 and 0.1 stand for their exact decimal values;
  the special values NaN and the infinities, which the code can produce by
  dividing by zero, are modelled explicitly by the type `JsNum`.
* `parseInt` applied to a decimal integer string returns the binary64 value
  nearest to the integer; this rounding (exact only up to 2^53) is modelled
  faithfully by `float64RoundInt`, as is the rounding of integer-valued
  sums/differences/products of such values.
* `Math.pow` on finite arguments is kept abstract: every engine definition is
  parameterized by a function `pf : ℚ → ℚ → ℚ` standing for the finite-in,
  finite-out part of `Math.pow`; its special cases on NaN/infinite arguments
  follow the ECMAScript rules (`jsPow`).
* `Array.prototype.sort` with the comparator
  `(a, b) => a.block_timestamp - b.block_timestamp` is a stable ascending
  sort by timestamp (ES2019 requires sort stability); it is modelled by
  `List.mergeSort`, which is stable.
* The only exceptions the engine can raise are the explicit
  `throw new Error("Need at least 2 observations ...")` (line 142) and the
  TypeError raised by the property access
  `validObservations[0].block_timestamp` (line 139) when the filtered array
  is empty; both are modelled as values of `TwapError`.
-/

/-- One element of `observationState.observations.data`: `block_timestamp` is
the JSON number, `tick_cumulative` the exact integer denoted by the JSON
string (the code reads it through `parseInt`). -/
structure Observation where
  block_timestamp : Int
  tick_cumulative : Int
deriving DecidableEq

/-- The three fields of `poolState` the engine reads: `tick_current.data`,
`mint_decimals_0.data`, `mint_decimals_1.data`. -/
structure PoolSnapshot where
  tick_current : Int
  mint_decimals_0 : Int
  mint_decimals_1 : Int
deriving DecidableEq

/-- A JavaScript number: a finite value (idealized as an exact rational), a
signed infinity (`inf true` is `+Infinity`), or NaN. -/
inductive JsNum where
  | num : ℚ → JsNum
  | inf : Bool → JsNum
  | nan : JsNum
deriving DecidableEq

/-- Subtraction of JavaScript numbers (finite part exact). -/
def jsSub : JsNum → JsNum → JsNum
  | JsNum.nan, _ => JsNum.nan
  | _, JsNum.nan => JsNum.nan
  | JsNum.num a, JsNum.num b => JsNum.num (a - b)
  | JsNum.num _, JsNum.inf s => JsNum.inf (!s)
  | JsNum.inf s, JsNum.num _ => JsNum.inf s
  | JsNum.inf s, JsNum.inf t => if s = t then JsNum.nan else JsNum.inf s

/-- Multiplication of JavaScript numbers (finite part exact). -/
def jsMul : JsNum → JsNum → JsNum
  | JsNum.nan, _ => JsNum.nan
  | _, JsNum.nan => JsNum.nan
  | JsNum.num a, JsNum.num b => JsNum.num (a * b)
  | JsNum.num a, JsNum.inf s => if a = 0 then JsNum.nan else JsNum.inf (if 0 < a then s else !s)
  | JsNum.inf s, JsNum.num b => if b = 0 then JsNum.nan else JsNum.inf (if 0 < b then s else !s)
  | JsNum.inf s, JsNum.inf t => JsNum.inf (s = t)

/-- Division of JavaScript numbers: `x / 0` is NaN for `x = 0` and a signed
infinity otherwise (the model's literal `0` is IEEE `+0`). -/
def jsDiv : JsNum → JsNum → JsNum
  | JsNum.nan, _ => JsNum.nan
  | _, JsNum.nan => JsNum.nan
  | JsNum.num a, JsNum.num b =>
      if b = 0 then (if a = 0 then JsNum.nan else JsNum.inf (0 < a)) else JsNum.num (a / b)
  | JsNum.inf s, JsNum.num b => JsNum.inf (if 0 ≤ b then s else !s)
  | JsNum.num _, JsNum.inf _ => JsNum.num 0
  | JsNum.inf _, JsNum.inf _ => JsNum.nan

/-- `Math.abs`. -/
def jsAbs : JsNum → JsNum
  | JsNum.num a => JsNum.num |a|
  | JsNum.inf _ => JsNum.inf true
  | JsNum.nan => JsNum.nan

/-- The comparison `x > c` against a finite constant: NaN compares false,
`+Infinity` true, `-Infinity` false. -/
def jsGtQ (x : JsNum) (c : ℚ) : Bool :=
  match x with
  | JsNum.num a => decide (c < a)
  | JsNum.inf s => s
  | JsNum.nan => false

/-- `Math.pow` with finite-in, finite-out behavior abstracted as `pf`, and the
ECMAScript special cases for NaN and infinite exponents over a finite base
(the embedded program only ever passes the finite bases 1.0001 and 10; an
infinite or NaN base is mapped to NaN). -/
def jsPow (pf : ℚ → ℚ → ℚ) : JsNum → JsNum → JsNum
  | JsNum.num b, JsNum.num e => JsNum.num (pf b e)
  | JsNum.num b, JsNum.inf s =>
      if b = 1 ∨ b = -1 then JsNum.nan
      else if 1 < |b| then (if s then JsNum.inf true else JsNum.num 0)
      else (if s then JsNum.num 0 else JsNum.inf true)
  | JsNum.num _, JsNum.nan => JsNum.nan
  | JsNum.inf _, _ => JsNum.nan
  | JsNum.nan, _ => JsNum.nan

/-- Rounding of a natural number to the nearest binary64 value (round half to
even): exact up to `2 ^ 53`, beyond that the low bits past the 53-bit
significand are rounded away.  (The overflow to `Infinity` above `2 ^ 1024`
is not modelled; every input considered here is far below it.) -/
def float64RoundNat (n : Nat) : Nat :=
  if n ≤ 2 ^ 53 then n
  else
    let k := n.log2 - 52
    let q := n / 2 ^ k
    let r := n % 2 ^ k
    let half := 2 ^ (k - 1)
    let q2 := if r < half then q else if half < r then q + 1 else if q % 2 = 0 then q else q + 1
    q2 * 2 ^ k

/-- Rounding of an integer to the nearest binary64 value (sign-symmetric). -/
def float64RoundInt (n : Int) : Int :=
  if 0 ≤ n then (float64RoundNat n.toNat : Int) else -(float64RoundNat (-n).toNat : Int)

/-- `parseInt` applied to the decimal string denoting `n` yields the binary64
value nearest to `n`. -/
def parseIntJS (n : Int) : Int := float64RoundInt n

/-- `Math.round`: round half toward positive infinity.  (It is applied by the
code only to integer-valued arguments, where it is the identity.) -/
def jsRound (q : ℚ) : Int := ⌊q + 1 / 2⌋

/-- Risk level, `"LOW" | "MEDIUM" | "HIGH" | "CRITICAL"` in the source. -/
inductive RiskLevel where
  | LOW
  | MEDIUM
  | HIGH
  | CRITICAL
deriving DecidableEq

/-- The record returned by `detectManipulation` (source lines 76-82). -/
structure RiskReport where
  level : RiskLevel
  factors : List String
  warning : Option String
  confidence : Int
  recommendations : List String
deriving DecidableEq

/-- `calculateConfidence` (source lines 85-95): base 50, sequential
adjustments, then `Math.min(Math.max(confidence, 0), 100)`.
`factors.includes(s)` is list membership. -/
def calculateConfidence (factors : List String) (timePeriodHours : ℚ) : Int :=
  let confidence : Int := 50
  let confidence := if 1 < timePeriodHours then confidence + 20 else confidence
  let confidence := if 6 < timePeriodHours then confidence + 15 else confidence
  let confidence := if "NORMAL_MOVEMENT" ∈ factors then confidence + 15 else confidence
  let confidence := if "EXTREME_PRICE_DIFF" ∈ factors then confidence + 25 else confidence
  let confidence := if "INSUFFICIENT_DATA" ∈ factors then confidence - 30 else confidence
  min (max confidence 0) 100

/-- `getRecommendations` (source lines 97-126): a fixed list per level, plus a
collect-more-data item appended when INSUFFICIENT_DATA is present. -/
def getRecommendations (riskLevel : RiskLevel) (factors : List String) : List String :=
  let recommendations :=
    match riskLevel with
    | RiskLevel.CRITICAL =>
        ["🚨 DO NOT TRADE - High manipulation risk",
         "📊 Wait for market stabilization",
         "🔍 Investigate recent transactions"]
    | RiskLevel.HIGH =>
        ["⚠️ Trade with extreme caution",
         "📈 Use smaller position sizes",
         "⏰ Wait for longer observation period"]
    | RiskLevel.MEDIUM =>
        ["⚡ Consider market volatility",
         "📊 Cross-check with other indicators"]
    | RiskLevel.LOW =>
        ["✅ Normal market conditions",
         "📈 Safe to trade with normal risk management"]
  if "INSUFFICIENT_DATA" ∈ factors then
    recommendations ++ ["⏱️ Collect more historical data"]
  else
    recommendations

/-- The per-interval tick velocities of source lines 31-38: for each
consecutive pair of observations with positive time delta,
`(parseInt(tick_cumulative) difference) / (timestamp difference)`; pairs with
non-positive delta are skipped. -/
def tickMovements (observations : List Observation) : List ℚ :=
  (observations.zip observations.tail).filterMap fun ab =>
    let timeDiff : Int := ab.2.block_timestamp - ab.1.block_timestamp
    let tickDiff : Int :=
      float64RoundInt (parseIntJS ab.2.tick_cumulative - parseIntJS ab.1.tick_cumulative)
    if 0 < timeDiff then some ((tickDiff : ℚ) / (timeDiff : ℚ)) else none

/-- The spike test of source lines 41-49.  On an empty velocity list the JS
code compares `Math.max()` = `-Infinity` against `NaN * 10`, which is false,
so the empty case is no spike; on a nonempty list the fold over `max` starting
at 0 equals `Math.max` of the absolute values, which are all nonnegative. -/
def tickSpike (ms : List ℚ) : Bool :=
  match ms with
  | [] => false
  | _ =>
    let avgTickMovement := ms.sum / (ms.length : ℚ)
    let maxMovement := (ms.map (fun m => |m|)).foldr max 0
    decide (|avgTickMovement| * 10 < maxMovement)

/-- The distinct rounded inter-observation tick deltas of source lines 57-63:
`Math.round((tc[i] - tc[i-1]) * 1000)` collected into a Set.  All values are
integers, so `Math.round` is the identity and the float products round as
integers do. -/
def uniqueRatioValues (observations : List Observation) : List Int :=
  let tickCumulatives := observations.map fun obs => parseIntJS obs.tick_cumulative
  ((tickCumulatives.zip tickCumulatives.tail).map fun ab =>
    jsRound ((float64RoundInt (float64RoundInt (ab.2 - ab.1) * 1000) : ℚ))).dedup

/-- `detectManipulation` (source lines 4-83).  The sequential lets mirror the
imperative updates of `factors`, `riskLevel` and `warning`. -/
def detectManipulation (priceDiffPercent : JsNum) (timePeriodHours : ℚ)
    (observations : List Observation) : RiskReport :=
  -- Factor 1: extreme price difference (lines 10-21)
  let s1 : List String × RiskLevel × Option String :=
    if jsGtQ priceDiffPercent 50 then
      (["EXTREME_PRICE_DIFF"], RiskLevel.CRITICAL,
        some "Extreme price difference detected! Possible pump/dump or flash loan attack")
    else if jsGtQ priceDiffPercent 30 then
      (["HIGH_PRICE_DIFF"], RiskLevel.HIGH,
        some "Very high price difference - investigate for manipulation")
    else if jsGtQ priceDiffPercent 15 then
      (["MODERATE_PRICE_DIFF"], RiskLevel.MEDIUM, none)
    else ([], RiskLevel.LOW, none)
  let factors := s1.1
  let riskLevel := s1.2.1
  let warning := s1.2.2
  -- Factor 2: short time period with big changes (lines 24-28)
  let hit2 := decide (timePeriodHours < 1) && jsGtQ priceDiffPercent 20
  let factors := if hit2 then factors ++ ["RAPID_PRICE_CHANGE"] else factors
  let riskLevel :=
    if hit2 && decide (riskLevel = RiskLevel.LOW) then RiskLevel.HIGH else riskLevel
  let warning :=
    if hit2 then
      (if warning.isSome then warning
       else some "Rapid price change in short timeframe - possible manipulation")
    else warning
  -- Factor 3: tick movement pattern (lines 31-49); minMovement (line 43) is unused
  let hit3 := tickSpike (tickMovements observations)
  let factors := if hit3 then factors ++ ["TICK_SPIKE"] else factors
  let riskLevel :=
    if hit3 && (decide (riskLevel = RiskLevel.LOW) || decide (riskLevel = RiskLevel.MEDIUM)) then
      RiskLevel.HIGH
    else riskLevel
  -- Factor 4: very short observation window (lines 52-55)
  let hit4 := decide (timePeriodHours < 1 / 10)
  let factors := if hit4 then factors ++ ["INSUFFICIENT_DATA"] else factors
  let warning :=
    if hit4 then
      (if warning.isSome then warning
       else some "Very short observation period - results may not be reliable")
    else warning
  -- Factor 5: wash trading indicators (lines 57-69)
  let hit5 := decide (((uniqueRatioValues observations).length : ℚ) < (observations.length : ℚ) * (3 / 10))
  let factors := if hit5 then factors ++ ["REPETITIVE_PATTERNS"] else factors
  let riskLevel :=
    if hit5 && decide (riskLevel = RiskLevel.LOW) then RiskLevel.MEDIUM else riskLevel
  -- No factors found (lines 72-74)
  let factors := if factors.isEmpty then ["NORMAL_MOVEMENT"] else factors
  { level := riskLevel
    factors := factors
    warning := warning
    confidence := calculateConfidence factors timePeriodHours
    recommendations := getRecommendations riskLevel factors }

/-- The failures `calculateTWAP` can raise: the explicit
`throw new Error("Need at least 2 observations to calculate TWAP")` and the
TypeError from `validObservations[0].block_timestamp` on an empty filtered
array (line 139, reached before the length check). -/
inductive TwapError where
  | insufficientData
  | jsTypeError
deriving DecidableEq

deriving instance DecidableEq for Except

/-- The record returned by `calculateTWAP` (source lines 198-206). -/
structure TwapResult where
  twapTick : JsNum
  twapPrice : JsNum
  currentPrice : JsNum
  timePeriodHours : ℚ
  observationCount : Nat
  priceDifferencePercent : JsNum
  manipulationAnalysis : RiskReport
deriving DecidableEq

/-- The literal `1.0001` (idealized to its decimal value). -/
def tickBase : ℚ := 10001 / 10000

/-- The comparator `(a, b) => a.block_timestamp - b.block_timestamp` sorts
ascending by timestamp. -/
def obsLe (a b : Observation) : Bool := a.block_timestamp ≤ b.block_timestamp

/-- `validObservations.sort(...)`: stable ascending sort by timestamp. -/
def sortObs (l : List Observation) : List Observation := l.mergeSort obsLe

/-- `observations.filter(obs => obs.block_timestamp > 0)` (line 133). -/
def filterValid (observations : List Observation) : List Observation :=
  observations.filter fun obs => 0 < obs.block_timestamp

/-- Source lines 138-206 applied to the already filtered and sorted
observation array. -/
def twapFromSorted (pf : ℚ → ℚ → ℚ) (poolState : PoolSnapshot)
    (validObservations : List Observation) : Except TwapError TwapResult :=
  match validObservations with
  | [] =>
    -- line 139 reads validObservations[0].block_timestamp: TypeError on undefined
    Except.error TwapError.jsTypeError
  | oldest0 :: _ =>
    if validObservations.length < 2 then
      Except.error TwapError.insufficientData
    else
      let oldestObs := oldest0
      let newestObs := validObservations.getLastD oldest0
      let timeDiff : Int := newestObs.block_timestamp - oldestObs.block_timestamp
      let tickCumulativeDiff : Int :=
        float64RoundInt (parseIntJS newestObs.tick_cumulative - parseIntJS oldestObs.tick_cumulative)
      let twapTick := jsDiv (JsNum.num (tickCumulativeDiff : ℚ)) (JsNum.num (timeDiff : ℚ))
      let price := jsPow pf (JsNum.num tickBase) twapTick
      let decimalAdjustment : ℚ :=
        pf 10 ((poolState.mint_decimals_1 : ℚ) - (poolState.mint_decimals_0 : ℚ))
      let adjustedPrice := jsMul price (JsNum.num decimalAdjustment)
      let currentPrice :=
        jsMul (JsNum.num (pf tickBase (poolState.tick_current : ℚ))) (JsNum.num decimalAdjustment)
      let priceDiffPercent :=
        jsAbs (jsMul (jsDiv (jsSub adjustedPrice currentPrice) currentPrice) (JsNum.num 100))
      let timePeriodHours : ℚ := (timeDiff : ℚ) / 3600
      Except.ok
        { twapTick := twapTick
          twapPrice := adjustedPrice
          currentPrice := currentPrice
          timePeriodHours := timePeriodHours
          observationCount := validObservations.length
          priceDifferencePercent := priceDiffPercent
          manipulationAnalysis := detectManipulation priceDiffPercent timePeriodHours validObservations }

/-- `calculateTWAP` (source lines 128-207): filter, sort, then compute. -/
def calculateTWAP (pf : ℚ → ℚ → ℚ) (poolState : PoolSnapshot)
    (observations : List Observation) : Except TwapError TwapResult :=
  twapFromSorted pf poolState (sortObs (filterValid observations))

/-- `calculateTWAPCLI` (twap-cli.js lines 207-285): its body is line for line
the same computation as `calculateTWAP`. -/
def calculateTWAPCLI (pf : ℚ → ℚ → ℚ) (poolState : PoolSnapshot)
    (observations : List Observation) : Except TwapError TwapResult :=
  twapFromSorted pf poolState (sortObs (filterValid observations))

/-!
Reference-level model of the engine, for the frame property: JavaScript arrays
are references into a store.  `ObsHeap` is the store, a reference is an index.
`Array.prototype.filter` allocates a fresh array; `Array.prototype.sort`
writes its receiver in place.  The caller's array is the reference `r`.
-/

/-- A store of observation arrays; a JavaScript array value is an index. -/
abbrev ObsHeap := List (List Observation)

/-- Dereference an array. -/
def heapGet (h : ObsHeap) (r : Nat) : List Observation := h.getD r []

/-- Allocate a fresh array holding `a`; returns the new store and the fresh
reference. -/
def heapAlloc (h : ObsHeap) (a : List Observation) : ObsHeap × Nat :=
  (h ++ [a], h.length)

/-- Overwrite the array at `r` in place. -/
def heapSet (h : ObsHeap) (r : Nat) (a : List Observation) : ObsHeap :=
  h.set r a

/-- `calculateTWAP` with the array operations of lines 129-136 made explicit
against the store: read `observationState.observations.data` (reference `r`),
`filter` into a fresh array, `sort` that fresh array in place, then compute.
The outcome (result or failure) is the first component; the final store the
second. -/
def calculateTWAPHeap (pf : ℚ → ℚ → ℚ) (poolState : PoolSnapshot)
    (h : ObsHeap) (r : Nat) : Except TwapError TwapResult × ObsHeap :=
  let observations := heapGet h r
  let alloc1 := heapAlloc h (filterValid observations)
  let h1 := alloc1.1
  let validRef := alloc1.2
  let h2 := heapSet h1 validRef (sortObs (heapGet h1 validRef))
  (twapFromSorted pf poolState (heapGet h2 validRef), h2)

/-- `calculateTWAPCLI` with explicit array references (twap-cli.js lines
208-215 are the same reads, filter, and in-place sort). -/
def calculateTWAPCLIHeap (pf : ℚ → ℚ → ℚ) (poolState : PoolSnapshot)
    (h : ObsHeap) (r : Nat) : Except TwapError TwapResult × ObsHeap :=
  let observations := heapGet h r
  let alloc1 := heapAlloc h (filterValid observations)
  let h1 := alloc1.1
  let validRef := alloc1.2
  let h2 := heapSet h1 validRef (sortObs (heapGet h1 validRef))
  (twapFromSorted pf poolState (heapGet h2 validRef), h2)

/-!
Concrete fixtures used by the counterexample and failing-input theorems.
-/

/-- A constant stand-in for the finite part of `Math.pow`; the facts proved
with it do not depend on the values `Math.pow` returns on finite arguments. -/
def pfOne : ℚ → ℚ → ℚ := fun _ _ => 1

/-- A pool with tick 0 and equal decimals. -/
def demoPool : PoolSnapshot :=
  { tick_current := 0, mint_decimals_0 := 0, mint_decimals_1 := 0 }

/-- Observation fixture: timestamp 1, cumulative tick 0. -/
def obsA : Observation := { block_timestamp := 1, tick_cumulative := 0 }

/-- Observation fixture: timestamp 2, cumulative tick `2 ^ 53 + 1`
(the first integer not representable in binary64). -/
def obsB : Observation := { block_timestamp := 2, tick_cumulative := 2 ^ 53 + 1 }

/-- Observation fixture: timestamp 100, cumulative tick 0. -/
def obsE1 : Observation := { block_timestamp := 100, tick_cumulative := 0 }

/-- Observation fixture: the same timestamp 100, cumulative tick 7. -/
def obsE2 : Observation := { block_timestamp := 100, tick_cumulative := 7 }

/-- Observation fixture: a single valid observation. -/
def obsSingle : Observation := { block_timestamp := 5, tick_cumulative := 3 }

/-- Observation fixture for sort ties: timestamp 10, cumulative tick 0. -/
def obsT1 : Observation := { block_timestamp := 10, tick_cumulative := 0 }

/-- Observation fixture for sort ties: the same timestamp 10, cumulative
tick 100. -/
def obsT2 : Observation := { block_timestamp := 10, tick_cumulative := 100 }

/-- Observation fixture: timestamp 20, cumulative tick 50. -/
def obsT3 : Observation := { block_timestamp := 20, tick_cumulative := 50 }

/-- A stand-in for `Math.pow` exhibiting binary64 underflow: in JavaScript
`Math.pow(1.0001, -1000000000)` is exactly `0` (the true value is about
`10 ^ -43430`, far below the smallest positive double), and this function
returns `0` on any exponent below `-1000` and `1` otherwise. -/
def pfUnderflow : ℚ → ℚ → ℚ := fun _ e => if e < -1000 then 0 else 1

/-- A pool whose `tick_current` is so negative that
`Math.pow(1.0001, tick_current)` underflows to `0`. -/
def poolDeepTick : PoolSnapshot :=
  { tick_current := -1000000000, mint_decimals_0 := 0, mint_decimals_1 := 0 }

/-- Observation fixture: timestamp 1, cumulative tick 0. -/
def obsP1 : Observation := { block_timestamp := 1, tick_cumulative := 0 }

/-- Observation fixture: timestamp 2, cumulative tick 2. -/
def obsP2 : Observation := { block_timestamp := 2, tick_cumulative := 2 }

/-- The `priceDifferencePercent` value the engine computes on a two-element
(already sorted) array; abbreviates the closed form of `twapFromSorted_pair`. -/
def twapPairPercent (pf : ℚ → ℚ → ℚ) (poolState : PoolSnapshot) (a b : Observation) : JsNum :=
  let twapTick :=
    jsDiv
      (JsNum.num ((float64RoundInt
        (parseIntJS b.tick_cumulative - parseIntJS a.tick_cumulative) : Int) : ℚ))
      (JsNum.num ((b.block_timestamp - a.block_timestamp : Int) : ℚ))
  let price := jsPow pf (JsNum.num tickBase) twapTick
  let decimalAdjustment :=
    pf 10 ((poolState.mint_decimals_1 : ℚ) - (poolState.mint_decimals_0 : ℚ))
  let adjustedPrice := jsMul price (JsNum.num decimalAdjustment)
  let currentPrice :=
    jsMul (JsNum.num (pf tickBase (poolState.tick_current : ℚ))) (JsNum.num decimalAdjustment)
  jsAbs (jsMul (jsDiv (jsSub adjustedPrice currentPrice) currentPrice) (JsNum.num 100))

/-!
Helper lemmas about the rounding model and the sort.
-/

/-- Naturals up to `2 ^ 53` are exactly representable in binary64. -/
theorem float64RoundNat_of_le (n : Nat) (h : n ≤ 2 ^ 53) : float64RoundNat n = n := by
  unfold float64RoundNat
  rw [if_pos h]

/-- Integers of absolute value up to `2 ^ 53` are exactly representable in
binary64. -/
theorem float64RoundInt_of_le (n : Int) (h : n.natAbs ≤ 2 ^ 53) : float64RoundInt n = n := by
  unfold float64RoundInt
  by_cases hn : 0 ≤ n
  · rw [if_pos hn, float64RoundNat_of_le _ (by omega)]
    omega
  · rw [if_neg hn, float64RoundNat_of_le _ (by omega)]
    omega

/-- `2 ^ 53 + 1` is not representable in binary64: it rounds (half to even)
down to `2 ^ 53`. -/
theorem float64RoundNat_two_pow_53_add_one : float64RoundNat (2 ^ 53 + 1) = 2 ^ 53 := by
  have hl : Nat.log2 (2 ^ 53 + 1) = 53 := by
    rw [Nat.log2_eq_log_two]
    exact Nat.log_eq_of_pow_le_of_lt_pow (by norm_num) (by norm_num)
  unfold float64RoundNat
  rw [if_neg (by norm_num)]
  simp only [hl]
  norm_num

/-- The integer version, exactly as `parseInt("9007199254740993")` evaluates
to `9007199254740992` in JavaScript. -/
theorem float64RoundInt_two_pow_53_add_one : float64RoundInt (2 ^ 53 + 1) = 2 ^ 53 := by
  unfold float64RoundInt
  rw [if_pos (by norm_num)]
  rw [show Int.toNat (2 ^ 53 + 1) = 2 ^ 53 + 1 from rfl]
  rw [float64RoundNat_two_pow_53_add_one]
  norm_num

/-- Zero is representable. -/
theorem float64RoundInt_zero : float64RoundInt 0 = 0 :=
  float64RoundInt_of_le 0 (by norm_num)

/-- `2 ^ 53` itself is representable. -/
theorem float64RoundInt_two_pow_53 : float64RoundInt (2 ^ 53) = 2 ^ 53 :=
  float64RoundInt_of_le _ (by norm_num)

/-- Numeral form of `float64RoundInt_two_pow_53_add_one` (`2 ^ 53 + 1`). -/
theorem float64RoundInt_9007199254740993 :
    float64RoundInt 9007199254740993 = 9007199254740992 := by
  have h := float64RoundInt_two_pow_53_add_one
  norm_num at h
  exact h

/-- Numeral form of `float64RoundInt_two_pow_53` (`2 ^ 53`). -/
theorem float64RoundInt_9007199254740992 :
    float64RoundInt 9007199254740992 = 9007199254740992 := by
  have h := float64RoundInt_two_pow_53
  norm_num at h
  exact h

/-- A list already sorted by timestamp is left unchanged by the sort. -/
theorem sortObs_of_sorted (l : List Observation)
    (h : l.Pairwise fun a b => obsLe a b = true) : sortObs l = l :=
  List.mergeSort_of_sorted h

/-- Evaluation of the engine core on a two-element (already sorted) array:
the branch structure collapses and every field is the closed form below. -/
theorem twapFromSorted_pair (pf : ℚ → ℚ → ℚ) (poolState : PoolSnapshot) (a b : Observation) :
    twapFromSorted pf poolState [a, b] =
      Except.ok
        { twapTick :=
            jsDiv
              (JsNum.num ((float64RoundInt
                (parseIntJS b.tick_cumulative - parseIntJS a.tick_cumulative) : Int) : ℚ))
              (JsNum.num ((b.block_timestamp - a.block_timestamp : Int) : ℚ))
          twapPrice :=
            jsMul
              (jsPow pf (JsNum.num tickBase)
                (jsDiv
                  (JsNum.num ((float64RoundInt
                    (parseIntJS b.tick_cumulative - parseIntJS a.tick_cumulative) : Int) : ℚ))
                  (JsNum.num ((b.block_timestamp - a.block_timestamp : Int) : ℚ))))
              (JsNum.num (pf 10 ((poolState.mint_decimals_1 : ℚ) - (poolState.mint_decimals_0 : ℚ))))
          currentPrice :=
            jsMul (JsNum.num (pf tickBase (poolState.tick_current : ℚ)))
              (JsNum.num (pf 10 ((poolState.mint_decimals_1 : ℚ) - (poolState.mint_decimals_0 : ℚ))))
          timePeriodHours := ((b.block_timestamp - a.block_timestamp : Int) : ℚ) / 3600
          observationCount := 2
          priceDifferencePercent :=
            twapPairPercent pf poolState a b
          manipulationAnalysis :=
            detectManipulation (twapPairPercent pf poolState a b)
              (((b.block_timestamp - a.block_timestamp : Int) : ℚ) / 3600) [a, b] } := rfl


/-- Evaluation of the `twapTick` field on any already sorted array of length
at least 2 with head `a`: the quotient of the rounded cumulative-tick
difference by the timestamp difference between last and first elements. -/
theorem twapFromSorted_twapTick (pf : ℚ → ℚ → ℚ) (poolState : PoolSnapshot)
    (a : Observation) (l : List Observation) (h : ¬ (a :: l).length < 2) :
    (twapFromSorted pf poolState (a :: l)).map (fun r => r.twapTick) =
      Except.ok
        (jsDiv
          (JsNum.num ((float64RoundInt
            (parseIntJS ((a :: l).getLastD a).tick_cumulative -
              parseIntJS a.tick_cumulative) : Int) : ℚ))
          (JsNum.num ((((a :: l).getLastD a).block_timestamp - a.block_timestamp : Int) : ℚ))) := by
  simp only [twapFromSorted]
  rw [if_neg h]
  rfl

/-- The sort's output is sorted (non-strictly) by timestamp. -/
theorem sortObs_sorted (l : List Observation) :
    (sortObs l).Pairwise (fun a b => obsLe a b = true) := by
  apply List.sorted_mergeSort
  · intro a b c hab hbc
    simp only [obsLe, decide_eq_true_eq] at *
    omega
  · intro a b
    simp only [obsLe]
    by_cases h : a.block_timestamp ≤ b.block_timestamp
    · simp [h]
    · simp [h]
      omega

/-- When all timestamps are distinct, sorting is insensitive to the input
order: any two permutation-equal lists sort to the same list.  (With a
repeated timestamp this fails, because the stable sort keeps the original
relative order of the tied elements.) -/
theorem sortObs_eq_of_perm (l l' : List Observation) (hp : List.Perm l l')
    (hn : (l.map (fun o => o.block_timestamp)).Nodup) : sortObs l = sortObs l' := by
  have p1 : List.Perm (sortObs l) l := List.mergeSort_perm l obsLe
  have p2 : List.Perm (sortObs l') l' := List.mergeSort_perm l' obsLe
  have hperm : List.Perm (sortObs l) (sortObs l') := p1.trans (hp.trans p2.symm)
  have hn1 : ((sortObs l).map (fun o => o.block_timestamp)).Nodup :=
    ((p1.map (fun o => o.block_timestamp)).nodup_iff).mpr hn
  have hn' : (l'.map (fun o => o.block_timestamp)).Nodup :=
    ((hp.map (fun o => o.block_timestamp)).nodup_iff).mp hn
  have hn2 : ((sortObs l').map (fun o => o.block_timestamp)).Nodup :=
    ((p2.map (fun o => o.block_timestamp)).nodup_iff).mpr hn'
  have ne1 : (sortObs l).Pairwise (fun a b => a.block_timestamp ≠ b.block_timestamp) :=
    List.pairwise_map.mp hn1
  have ne2 : (sortObs l').Pairwise (fun a b => a.block_timestamp ≠ b.block_timestamp) :=
    List.pairwise_map.mp hn2
  have lt1 : (sortObs l).Pairwise (fun a b => a.block_timestamp < b.block_timestamp) := by
    refine ((sortObs_sorted l).and ne1).imp ?_
    intro a b hab
    have := hab.1
    simp only [obsLe, decide_eq_true_eq] at this
    omega
  have lt2 : (sortObs l').Pairwise (fun a b => a.block_timestamp < b.block_timestamp) := by
    refine ((sortObs_sorted l').and ne2).imp ?_
    intro a b hab
    have := hab.1
    simp only [obsLe, decide_eq_true_eq] at this
    omega
  haveI : IsAntisymm Observation (fun a b => a.block_timestamp < b.block_timestamp) :=
    ⟨fun a b hab hba => absurd hab (by omega)⟩
  exact List.eq_of_perm_of_sorted hperm lt1 lt2

/-- The sequential confidence adjustments equal the additive formula of the
specification, clamped to `[0, 100]`. -/
theorem calculateConfidence_eq (factors : List String) (t : ℚ) :
    calculateConfidence factors t =
      min (max (50 + (if 1 < t then 20 else 0) + (if 6 < t then 15 else 0)
        + (if "NORMAL_MOVEMENT" ∈ factors then 15 else 0)
        + (if "EXTREME_PRICE_DIFF" ∈ factors then 25 else 0)
        - (if "INSUFFICIENT_DATA" ∈ factors then 30 else 0)) 0) 100 := by
  unfold calculateConfidence
  by_cases h1 : 1 < t <;> by_cases h2 : 6 < t <;>
    by_cases h3 : "NORMAL_MOVEMENT" ∈ factors <;>
    by_cases h4 : "EXTREME_PRICE_DIFF" ∈ factors <;>
    by_cases h5 : "INSUFFICIENT_DATA" ∈ factors <;>
    simp [h1, h2, h3, h4, h5]

/-- Confidence never drops below 0. -/
theorem calculateConfidence_nonneg (factors : List String) (t : ℚ) :
    0 ≤ calculateConfidence factors t :=
  le_min (le_max_right _ _) (by norm_num)

/-- Confidence never exceeds 100. -/
theorem calculateConfidence_le (factors : List String) (t : ℚ) :
    calculateConfidence factors t ≤ 100 :=
  min_le_right _ _

/-- When every consecutive pair of observations has non-positive time delta,
every pair is skipped and the velocity list is empty. -/
theorem tickMovements_eq_nil :
    ∀ (obs : List Observation),
      List.Chain' (fun a b => b.block_timestamp ≤ a.block_timestamp) obs →
      tickMovements obs = []
  | [], _ => rfl
  | [_], _ => rfl
  | a :: b :: rest, h => by
    have h1 : b.block_timestamp ≤ a.block_timestamp := (List.chain'_cons.mp h).1
    have h2 := tickMovements_eq_nil (b :: rest) (List.chain'_cons.mp h).2
    unfold tickMovements at h2 ⊢
    simp only [List.tail_cons, List.zip_cons_cons, List.filterMap_cons] at h2 ⊢
    rw [if_neg (by omega)]
    exact h2

/-- Whatever the level and factors, the recommendation list is nonempty. -/
theorem getRecommendations_ne_nil (riskLevel : RiskLevel) (factors : List String) :
    getRecommendations riskLevel factors ≠ [] := by
  unfold getRecommendations
  cases riskLevel <;> split_ifs <;> simp

/-- The recommendations field is `getRecommendations` of the final level and
factors. -/
theorem detectManipulation_recommendations (p : JsNum) (t : ℚ) (obs : List Observation) :
    (detectManipulation p t obs).recommendations =
      getRecommendations (detectManipulation p t obs).level (detectManipulation p t obs).factors :=
  rfl

/-- Claim C1: the claim asserts that on two valid observations A, B with
`A.timestamp < B.timestamp` the engine returns
`twapTick = (B.cumulativeTick - A.cumulativeTick) / (B.timestamp - A.timestamp)`
exactly, the difference being computed in an integer type wide enough for
cumulative ticks beyond `2 ^ 53`.  The code computes the difference with
`parseInt` into binary64: at A = (timestamp 1, tick 0),
B = (timestamp 2, tick `2 ^ 53 + 1`) it returns `twapTick = 2 ^ 53`, while
the exact quotient is `2 ^ 53 + 1` — the claimed exactness fails. -/
theorem C1_twap_tick_precision_loss (pf : ℚ → ℚ → ℚ) :
    (calculateTWAP pf demoPool [obsA, obsB]).map (fun r => r.twapTick) =
      Except.ok (JsNum.num ((2 : ℚ) ^ 53)) ∧
    ((2 : ℚ) ^ 53) ≠ ((2 ^ 53 + 1 : ℚ) - 0) / ((2 : ℚ) - 1) := by
  constructor
  · unfold calculateTWAP
    rw [show filterValid [obsA, obsB] = [obsA, obsB] from rfl,
      sortObs_of_sorted _ (by decide), twapFromSorted_twapTick _ _ _ _ (by norm_num)]
    norm_num [obsA, obsB, parseIntJS, jsDiv, float64RoundInt_9007199254740993,
      float64RoundInt_9007199254740992, float64RoundInt_zero]
  · norm_num

/-- Claim C2: the claim asserts that with oldest and newest timestamps equal
the engine fails with `InvalidTimeRange` and never returns NaN or Infinity.
The code has no such guard: on two valid observations that share timestamp
100 (cumulative ticks 0 and 7) it divides by `timeDiff = 0` and returns a
result whose `twapTick` is `+Infinity`. -/
theorem C2_zero_time_range_returns_infinite_tick (pf : ℚ → ℚ → ℚ) :
    (calculateTWAP pf demoPool [obsE1, obsE2]).map (fun r => r.twapTick) =
      Except.ok (JsNum.inf true) := by
  unfold calculateTWAP
  rw [show filterValid [obsE1, obsE2] = [obsE1, obsE2] from rfl,
    sortObs_of_sorted _ (by decide), twapFromSorted_twapTick _ _ _ _ (by norm_num)]
  norm_num [obsE1, obsE2, parseIntJS, jsDiv, float64RoundInt_zero,
    float64RoundInt_of_le 7 (by norm_num)]

/-- Claim C3: the claim asserts that with fewer than 2 valid observations the
engine always fails with the `InsufficientData` error.  It always fails and
returns no partial result (third conjunct), but with zero valid observations
the failure is a TypeError raised by the logging line
`validObservations[0].block_timestamp` (line 139), reached before the length
check, not the `InsufficientData` throw; with exactly one valid observation
it is the `InsufficientData` throw. -/
theorem C3_insufficient_observations_failure_modes (pf : ℚ → ℚ → ℚ) :
    calculateTWAP pf demoPool [] = Except.error TwapError.jsTypeError ∧
    calculateTWAP pf demoPool [obsSingle] = Except.error TwapError.insufficientData ∧
    ∀ (poolState : PoolSnapshot) (obs : List Observation),
      (filterValid obs).length < 2 →
      ∃ e, calculateTWAP pf poolState obs = Except.error e := by
  refine ⟨?_, ?_, ?_⟩
  · unfold calculateTWAP
    rw [show filterValid [] = [] from rfl, sortObs_of_sorted _ (by decide)]
    rfl
  · unfold calculateTWAP
    rw [show filterValid [obsSingle] = [obsSingle] from rfl, sortObs_of_sorted _ (by decide)]
    rfl
  · intro poolState obs h
    unfold calculateTWAP
    have hlen : (sortObs (filterValid obs)).length = (filterValid obs).length :=
      List.length_mergeSort (filterValid obs)
    cases hs : sortObs (filterValid obs) with
    | nil => exact ⟨TwapError.jsTypeError, rfl⟩
    | cons a rest =>
      refine ⟨TwapError.insufficientData, ?_⟩
      have hlen2 : (a :: rest).length = (filterValid obs).length := by
        rw [← hs]
        exact hlen
      simp only [twapFromSorted]
      rw [if_pos (by omega)]

/-- Claim C4, counterexample: the claim asserts the engine returns the same
result on every permutation of a valid observation list.  With the tied
timestamps 10, 10, 20 and cumulative ticks 0, 100, 50, swapping the two tied
observations changes the stable sort's order, so the oldest observation (and
with it `twapTick`: 5 versus -5) changes. -/
theorem C4_shuffle_changes_result_cex :
    List.Perm [obsT1, obsT2, obsT3] [obsT2, obsT1, obsT3] ∧
    calculateTWAP pfOne demoPool [obsT1, obsT2, obsT3] ≠
      calculateTWAP pfOne demoPool [obsT2, obsT1, obsT3] := by
  have hma : (calculateTWAP pfOne demoPool [obsT1, obsT2, obsT3]).map (fun r => r.twapTick) =
      Except.ok (JsNum.num 5) := by
    unfold calculateTWAP
    rw [show filterValid [obsT1, obsT2, obsT3] = [obsT1, obsT2, obsT3] from rfl,
      sortObs_of_sorted _ (by decide), twapFromSorted_twapTick _ _ _ _ (by norm_num)]
    norm_num [obsT1, obsT2, obsT3, parseIntJS, jsDiv,
      float64RoundInt_of_le 50 (by norm_num), float64RoundInt_of_le 0 (by norm_num),
      float64RoundInt_of_le (50 - 0) (by norm_num)]
  have hmb : (calculateTWAP pfOne demoPool [obsT2, obsT1, obsT3]).map (fun r => r.twapTick) =
      Except.ok (JsNum.num (-5)) := by
    unfold calculateTWAP
    rw [show filterValid [obsT2, obsT1, obsT3] = [obsT2, obsT1, obsT3] from rfl,
      sortObs_of_sorted _ (by decide), twapFromSorted_twapTick _ _ _ _ (by norm_num)]
    norm_num [obsT1, obsT2, obsT3, parseIntJS, jsDiv,
      float64RoundInt_of_le 50 (by norm_num), float64RoundInt_of_le 100 (by norm_num),
      float64RoundInt_of_le (-50) (by norm_num)]
  refine ⟨List.Perm.swap obsT2 obsT1 [obsT3], fun hEq => ?_⟩
  rw [hEq, hmb] at hma
  norm_num at hma

/-- Claim C4, amended: the engine returns the same `TwapResult` on every
permutation of the input provided the valid observations carry pairwise
distinct timestamps (the pre-sort then normalizes the order fully; with a
repeated timestamp the stable sort preserves input order among ties and the
result can change, as the counterexample shows). -/
theorem C4_shuffle_invariance_distinct_timestamps (pf : ℚ → ℚ → ℚ)
    (poolState : PoolSnapshot) (l l' : List Observation) (hp : List.Perm l l')
    (hn : ((filterValid l).map (fun o => o.block_timestamp)).Nodup) :
    calculateTWAP pf poolState l = calculateTWAP pf poolState l' := by
  have hperm2 : List.Perm (filterValid l) (filterValid l') := by
    unfold filterValid
    exact hp.filter _
  unfold calculateTWAP
  rw [sortObs_eq_of_perm (filterValid l) (filterValid l') hperm2 hn]

/-- Claim C4, witness: the amended theorem applied to a two-element list with
distinct timestamps and its swap. -/
theorem C4_shuffle_invariance_witness :
    calculateTWAP pfOne demoPool [obsT1, obsT3] = calculateTWAP pfOne demoPool [obsT3, obsT1] :=
  C4_shuffle_invariance_distinct_timestamps pfOne demoPool [obsT1, obsT3] [obsT3, obsT1]
    (List.Perm.swap obsT3 obsT1 []) (by decide)

/-- Claim C5: the claim asserts that when the computed `currentPrice` is 0 the
engine fails with a DivisionByZero-equivalent error instead of returning a
silent Infinity.  The code has no such guard: with `tick_current` deep enough
that `Math.pow(1.0001, tick_current)` underflows to 0 (modelled by
`pfUnderflow`), the engine returns a result with `currentPrice = 0` and
`priceDifferencePercent = +Infinity`. -/
theorem C5_zero_current_price_not_failed :
    (calculateTWAP pfUnderflow poolDeepTick [obsP1, obsP2]).map
      (fun r => (r.currentPrice, r.priceDifferencePercent)) =
      Except.ok (JsNum.num 0, JsNum.inf true) := by
  unfold calculateTWAP
  rw [show filterValid [obsP1, obsP2] = [obsP1, obsP2] from rfl,
    sortObs_of_sorted _ (by decide), twapFromSorted_pair]
  norm_num [obsP1, obsP2, poolDeepTick, pfUnderflow, tickBase, twapPairPercent, jsPow, jsMul,
    jsSub, jsDiv, jsAbs, parseIntJS, float64RoundInt_zero,
    float64RoundInt_of_le 2 (by norm_num), Except.map]

set_option maxHeartbeats 1000000 in
/-- Claim C6: the scorer's price-difference rules — above 50 the level is
CRITICAL with EXTREME_PRICE_DIFF; in (30, 50] the level is at least HIGH with
HIGH_PRICE_DIFF; in (15, 30] the level is at least MEDIUM with
MODERATE_PRICE_DIFF; and at exactly 60 the level is CRITICAL, the factors
contain EXTREME_PRICE_DIFF and the confidence is the clamped formula
containing the +25 adjustment. -/
theorem C6_price_difference_scoring (p : JsNum) (t : ℚ) (obs : List Observation) :
    (jsGtQ p 50 = true →
      (detectManipulation p t obs).level = RiskLevel.CRITICAL ∧
      "EXTREME_PRICE_DIFF" ∈ (detectManipulation p t obs).factors) ∧
    (jsGtQ p 50 = false → jsGtQ p 30 = true →
      ((detectManipulation p t obs).level = RiskLevel.HIGH ∨
       (detectManipulation p t obs).level = RiskLevel.CRITICAL) ∧
      "HIGH_PRICE_DIFF" ∈ (detectManipulation p t obs).factors) ∧
    (jsGtQ p 30 = false → jsGtQ p 15 = true →
      ((detectManipulation p t obs).level = RiskLevel.MEDIUM ∨
       (detectManipulation p t obs).level = RiskLevel.HIGH ∨
       (detectManipulation p t obs).level = RiskLevel.CRITICAL) ∧
      "MODERATE_PRICE_DIFF" ∈ (detectManipulation p t obs).factors) ∧
    (p = JsNum.num 60 →
      (detectManipulation p t obs).level = RiskLevel.CRITICAL ∧
      "EXTREME_PRICE_DIFF" ∈ (detectManipulation p t obs).factors ∧
      (detectManipulation p t obs).confidence =
        min (max (50 + (if 1 < t then 20 else 0) + (if 6 < t then 15 else 0) + 25
          - (if t < 1 / 10 then 30 else 0)) 0) 100) := by
  refine ⟨?_, ?_, ?_, ?_⟩
  · intro h
    simp [detectManipulation, h]
    split_ifs <;> simp_all
  · intro h50 h30
    simp [detectManipulation, h50, h30]
    split_ifs <;> simp_all
  · intro h30 h15
    have h50 : jsGtQ p 50 = false := by
      cases p <;> simp_all [jsGtQ] <;> linarith
    simp [detectManipulation, h50, h30, h15]
    constructor
    · split_ifs <;> simp_all
    · split_ifs <;> simp_all
  · intro hp
    subst hp
    have h : jsGtQ (JsNum.num 60) 50 = true := by norm_num [jsGtQ]
    have hAB : (detectManipulation (JsNum.num 60) t obs).level = RiskLevel.CRITICAL ∧
        "EXTREME_PRICE_DIFF" ∈ (detectManipulation (JsNum.num 60) t obs).factors := by
      simp [detectManipulation, h]
      split_ifs <;> simp_all
    have hC : (detectManipulation (JsNum.num 60) t obs).confidence =
        min (max (50 + (if 1 < t then 20 else 0) + (if 6 < t then 15 else 0) + 25
          - (if t < 1 / 10 then 30 else 0)) 0) 100 := by
      simp only [detectManipulation, h, if_true, Bool.true_and]
      cases hs : tickSpike (tickMovements obs) <;>
        cases hu : decide (((uniqueRatioValues obs).length : ℚ) < (obs.length : ℚ) * (3 / 10)) <;>
        by_cases ht10 : t < (10 : ℚ)⁻¹ <;>
        by_cases h2 : (decide (t < 1) && jsGtQ (JsNum.num 60) 20) = true <;>
        simp [hs, hu, ht10, h2, calculateConfidence_eq]
    exact ⟨hAB.1, hAB.2, hC⟩

/-- Claim C7: for every factor list and time period, the confidence equals
base 50 plus 20 for more than one hour, plus 15 for more than six hours, plus
15 for NORMAL_MOVEMENT, plus 25 for EXTREME_PRICE_DIFF, minus 30 for
INSUFFICIENT_DATA, clamped to `[0, 100]`, and is hence always an integer in
`[0, 100]`. -/
theorem C7_confidence_clamped_formula (factors : List String) (t : ℚ) :
    calculateConfidence factors t =
      min (max (50 + (if 1 < t then 20 else 0) + (if 6 < t then 15 else 0)
        + (if "NORMAL_MOVEMENT" ∈ factors then 15 else 0)
        + (if "EXTREME_PRICE_DIFF" ∈ factors then 25 else 0)
        - (if "INSUFFICIENT_DATA" ∈ factors then 30 else 0)) 0) 100 ∧
    0 ≤ calculateConfidence factors t ∧ calculateConfidence factors t ≤ 100 :=
  ⟨calculateConfidence_eq factors t, calculateConfidence_nonneg factors t,
    calculateConfidence_le factors t⟩

/-- Claim C8: the warning is the first applicable message in the priority
order EXTREME_PRICE_DIFF, HIGH_PRICE_DIFF, RAPID_PRICE_CHANGE,
INSUFFICIENT_DATA; a warning once set is never overwritten, and when none of
the four fires the warning is null. -/
theorem C8_warning_priority_order (p : JsNum) (t : ℚ) (obs : List Observation) :
    (detectManipulation p t obs).warning =
      if jsGtQ p 50 = true then
        some "Extreme price difference detected! Possible pump/dump or flash loan attack"
      else if jsGtQ p 30 = true then
        some "Very high price difference - investigate for manipulation"
      else if t < 1 ∧ jsGtQ p 20 = true then
        some "Rapid price change in short timeframe - possible manipulation"
      else if t < 1 / 10 then
        some "Very short observation period - results may not be reliable"
      else none := by
  by_cases h50 : jsGtQ p 50 <;> by_cases h30 : jsGtQ p 30 <;>
    simp [detectManipulation, h50, h30] <;> split_ifs <;> simp_all

/-- Claim C9: when every consecutive pair of observations has non-positive
time delta the velocity list is empty; the scorer does not crash, does not
add TICK_SPIKE, and still returns a complete report (nonempty
recommendations). -/
theorem C9_no_velocity_no_spike (p : JsNum) (t : ℚ) (obs : List Observation)
    (h : List.Chain' (fun a b => b.block_timestamp ≤ a.block_timestamp) obs) :
    "TICK_SPIKE" ∉ (detectManipulation p t obs).factors ∧
    (detectManipulation p t obs).recommendations ≠ [] := by
  have hm : tickMovements obs = [] := tickMovements_eq_nil obs h
  have hs : tickSpike (tickMovements obs) = false := by
    rw [hm]
    rfl
  constructor
  · by_cases h50 : jsGtQ p 50 <;> by_cases h30 : jsGtQ p 30 <;> by_cases h15 : jsGtQ p 15 <;>
      simp [detectManipulation, hs, h50, h30, h15] <;> split_ifs <;> simp_all
  · rw [detectManipulation_recommendations]
    exact getRecommendations_ne_nil _ _

/-- Claim C9, witness: two observations with the same timestamp 100. -/
theorem C9_no_velocity_no_spike_witness :
    "TICK_SPIKE" ∉ (detectManipulation (JsNum.num 0) 1 [obsE1, obsE2]).factors ∧
    (detectManipulation (JsNum.num 0) 1 [obsE1, obsE2]).recommendations ≠ [] :=
  C9_no_velocity_no_spike (JsNum.num 0) 1 [obsE1, obsE2]
    (by rw [List.chain'_pair]; norm_num [obsE1, obsE2])

/-- Claim C10: the engine leaves the caller's observation array unchanged:
`filter` allocates a fresh array and the in-place `sort` is applied only to
that copy, so after `calculateTWAP` or `calculateTWAPCLI` (result or failure
alike) the store still holds the original array at the caller's reference. -/
theorem C10_caller_observations_preserved (pf : ℚ → ℚ → ℚ) (poolState : PoolSnapshot)
    (h : ObsHeap) (r : Nat) (hr : r < h.length) :
    heapGet (calculateTWAPHeap pf poolState h r).2 r = heapGet h r ∧
    heapGet (calculateTWAPCLIHeap pf poolState h r).2 r = heapGet h r := by
  constructor <;>
  · simp only [calculateTWAPHeap, calculateTWAPCLIHeap, heapGet, heapAlloc, heapSet]
    rw [List.getD_eq_getElem?_getD, List.getD_eq_getElem?_getD,
      List.getElem?_set_ne (by omega), List.getElem?_append_left hr]

/-- Claim C10, witness: a one-array store. -/
theorem C10_caller_observations_preserved_witness :
    heapGet (calculateTWAPHeap pfOne demoPool [[obsT1]] 0).2 0 = heapGet [[obsT1]] 0 ∧
    heapGet (calculateTWAPCLIHeap pfOne demoPool [[obsT1]] 0).2 0 = heapGet [[obsT1]] 0 :=
  C10_caller_observations_preserved pfOne demoPool [[obsT1]] 0 (by norm_num)
